import Mathlib

/-!
Verification of the terminIA command-session orchestration engine.

The definitions below are a shallow embedding of
`src/open-webui/interactive_terminal_tool/secure_host_terminal_server.py`
(the FastAPI server: session registry, job store, executor, endpoints) and of
`src/open-webui/interactive_terminal_tool/interactive_terminal_open_webgui.py`
(the client-side poller).  Python dicts are modelled as association lists over
`String` keys, timestamps as `Nat`, and HTTP error responses as `Except Nat`
carrying the status code.
-/

namespace TerminIA

/-! ### Association-list model of Python dicts -/

/-- Lookup in an association list: `d[k]` / `k in d`. -/
def alookup {α : Type} : List (String × α) → String → Option α
  | [], _ => none
  | (k', v) :: rest, k => if k' = k then some v else alookup rest k

/-- Assignment `d[k] = v`: replaces the binding if the key is present,
otherwise appends it (Python dicts keep insertion order). -/
def aset {α : Type} : List (String × α) → String → α → List (String × α)
  | [], k, v => [(k, v)]
  | (k', v') :: rest, k, v =>
    if k' = k then (k, v) :: rest else (k', v') :: aset rest k v

/-! ### Data model (the server's in-memory stores) -/

/-- One entry of the `sessions` dict: the record built by `create_session`,
with the `closed_at` key that `close_session` adds modelled as an option. -/
structure SessionRec where
  id : String
  created_at : Nat
  active : Bool
  closed_at : Option Nat
deriving DecidableEq

/-- One entry of the `jobs` dict.  `send_async_command` creates it with the
first seven fields only; `return_code`, `completed_at` and `elapsed_seconds`
are keys added later by `execute_command`, modelled as options. -/
structure JobRec where
  job_id : String
  session_id : String
  command : String
  status : String
  output : String
  error : Option String
  started_at : Nat
  return_code : Option Int
  completed_at : Option Nat
  elapsed_seconds : Option Nat
deriving DecidableEq

/-- One entry of a session's `command_history` list, as appended by
`execute_command`. -/
structure HistoryEntry where
  command : String
  output : String
  error : String
  return_code : Int
  timestamp : Nat
  source : String
  risk_level : String
deriving DecidableEq

/-- The server's whole in-memory state: the three module-level dicts
`sessions`, `jobs`, `command_history`, plus `pendingTasks`, which records the
`asyncio.create_task(execute_command(job_id, command, session_id))` calls that
have been spawned but whose body has not yet run (one tuple per task, in
spawn order). -/
structure ServerState where
  sessions : List (String × SessionRec)
  jobs : List (String × JobRec)
  command_history : List (String × List HistoryEntry)
  pendingTasks : List (String × String × String)
deriving DecidableEq

/-- The empty stores the server process starts with. -/
def initState : ServerState :=
  { sessions := [], jobs := [], command_history := [], pendingTasks := [] }

/-! ### Endpoint handlers -/

/-- Response body of `POST /api/create_session`. -/
structure CreateResp where
  success : Bool
  session_id : String
  message : String
deriving DecidableEq

/-- `create_session`: unconditionally writes a fresh session record and an
empty history list under the given identifier, then reports success.  The
source performs no membership check before the two dict assignments. -/
def create_session (st : ServerState) (session_id : String) (now : Nat) :
    CreateResp × ServerState :=
  let st' : ServerState :=
    { st with
      sessions := aset st.sessions session_id
        { id := session_id, created_at := now, active := true, closed_at := none },
      command_history := aset st.command_history session_id [] }
  ({ success := true, session_id := session_id,
     message := "Terminal session created" }, st')

/-- Response body of `POST /api/send_async_command`. -/
structure SendResp where
  success : Bool
  job_id : String
  status : String
  risk_level : String
deriving DecidableEq

/-- `send_async_command`: 404 when `session_id not in sessions` (the `active`
flag is not consulted); otherwise stores a new job dict with status
`"running"` and hard-coded `risk_level` `"low"`, spawns the
`execute_command` background task, and reports success.  `job_id` stands for
the `str(uuid.uuid4())` the source generates. -/
def send_async_command (st : ServerState) (session_id command job_id : String)
    (now : Nat) : Except Nat SendResp × ServerState :=
  match alookup st.sessions session_id with
  | none => (.error 404, st)
  | some _ =>
    let job : JobRec :=
      { job_id := job_id, session_id := session_id, command := command,
        status := "running", output := "", error := none, started_at := now,
        return_code := none, completed_at := none, elapsed_seconds := none }
    let st' : ServerState :=
      { st with
        jobs := aset st.jobs job_id job,
        pendingTasks := st.pendingTasks ++ [(job_id, command, session_id)] }
    (.ok { success := true, job_id := job_id, status := "running",
           risk_level := "low" }, st')

/-- What the `await process.communicate()` interaction yields: either the
subprocess ran to completion with captured streams and a return code, or the
launch/await itself raised (the `except Exception` branch). -/
inductive ExecOutcome where
  | finished (stdout stderr : String) (returncode : Int)
  | raised (message : String)
deriving DecidableEq

/-- `execute_command`: on a finished subprocess it updates the job in place
(status `"completed"` iff return code 0, else `"failed"`; output, error,
return code, `completed_at`, elapsed) and appends one history entry to the
owning session; when the launch raises it only marks the job `"failed"` with
the exception text and `completed_at` — no history entry is appended.
The two `none` fallbacks are unreachable on server-produced states: a task
exists only for a job the intake just stored, and the history key is created
together with its session (the source would raise `KeyError` there, which in
the finished path its own `except` would turn into a failed job). -/
def execute_command (st : ServerState) (job_id command session_id : String)
    (outcome : ExecOutcome) (now : Nat) : ServerState :=
  match outcome with
  | .finished stdout stderr rc =>
    match alookup st.jobs job_id with
    | none => st
    | some j =>
      let elapsed := now - j.started_at
      let j' : JobRec :=
        { j with
          status := if rc = 0 then "completed" else "failed",
          output := stdout,
          error := if stderr = "" then none else some stderr,
          return_code := some rc,
          completed_at := some now,
          elapsed_seconds := some elapsed }
      let entry : HistoryEntry :=
        { command := command, output := stdout, error := stderr,
          return_code := rc, timestamp := now, source := "llm_async",
          risk_level := "low" }
      { st with
        jobs := aset st.jobs job_id j',
        command_history :=
          match alookup st.command_history session_id with
          | none => st.command_history
          | some h => aset st.command_history session_id (h ++ [entry]) }
  | .raised msg =>
    match alookup st.jobs job_id with
    | none => st
    | some j =>
      let j' : JobRec :=
        { j with
          status := "failed",
          error := some msg,
          completed_at := some now }
      { st with jobs := aset st.jobs job_id j' }

/-- `get_job` (`GET /api/job/{job_id}`): 404 for an unknown id; otherwise the
source takes `jobs[job_id].copy()`, derives `elapsed_seconds` on that copy
when the key is absent and the job is still running, and returns the copy.
The stored record is untouched, which the second component records by
returning the state as-is. -/
def get_job (st : ServerState) (job_id : String) (now : Nat) :
    Except Nat JobRec × ServerState :=
  match alookup st.jobs job_id with
  | none => (.error 404, st)
  | some j =>
    let view :=
      if j.elapsed_seconds = none ∧ j.status = "running" then
        { j with elapsed_seconds := some (now - j.started_at) }
      else j
    (.ok view, st)

/-- `get_command_history` (`GET /api/command_history/{session_id}`): 404 for
an unknown session, otherwise returns the session's history list and its
length (`command_history.get(session_id, [])`). -/
def get_command_history (st : ServerState) (session_id : String) :
    Except Nat (String × List HistoryEntry × Nat) × ServerState :=
  match alookup st.sessions session_id with
  | none => (.error 404, st)
  | some _ =>
    let history := (alookup st.command_history session_id).getD []
    (.ok (session_id, history, history.length), st)

/-- `close_session` (`POST /api/close_session/{session_id}`): 404 for an
unknown session, otherwise flips `active` to false and stamps `closed_at`.
The session record stays in the registry. -/
def close_session (st : ServerState) (session_id : String) (now : Nat) :
    Except Nat String × ServerState :=
  match alookup st.sessions session_id with
  | none => (.error 404, st)
  | some s =>
    let s' : SessionRec := { s with active := false, closed_at := some now }
    (.ok ("Session " ++ session_id ++ " closed"),
     { st with sessions := aset st.sessions session_id s' })

/-! ### Event semantics of the running server -/

/-- The operations that touch the shared stores: the five API handlers plus
the firing of one spawned `execute_command` task. -/
inductive Event where
  | createSession (sid : String) (now : Nat)
  | sendAsync (sid cmd jid : String) (now : Nat)
  | runTask (jid : String) (outcome : ExecOutcome) (now : Nat)
  | readJob (jid : String) (now : Nat)
  | readHistory (sid : String)
  | closeSession (sid : String) (now : Nat)
deriving DecidableEq

/-- First spawned-but-unfired task for a given job id. -/
def findTask : List (String × String × String) → String → Option (String × String)
  | [], _ => none
  | (j, c, s) :: rest, jid => if j = jid then some (c, s) else findTask rest jid

/-- Remove a job id's spawned task once it has fired. -/
def removeTask (tasks : List (String × String × String)) (jid : String) :
    List (String × String × String) :=
  tasks.filter (fun t => t.1 ≠ jid)

/-- One step of the running server.  The `sendAsync` guard models that
`str(uuid.uuid4())` never collides with an existing job id; the `runTask`
guard models that each spawned `asyncio` task fires exactly once.  An event
whose guard fails cannot occur in the real system and leaves the state
unchanged. -/
def step (st : ServerState) (e : Event) : ServerState :=
  match e with
  | .createSession sid now => (create_session st sid now).2
  | .sendAsync sid cmd jid now =>
    match alookup st.jobs jid with
    | some _ => st
    | none => (send_async_command st sid cmd jid now).2
  | .runTask jid outcome now =>
    match findTask st.pendingTasks jid with
    | none => st
    | some (cmd, sid) =>
      let st' := execute_command st jid cmd sid outcome now
      { st' with pendingTasks := removeTask st'.pendingTasks jid }
  | .readJob jid now => (get_job st jid now).2
  | .readHistory sid => (get_command_history st sid).2
  | .closeSession sid now => (close_session st sid now).2

/-- Run a sequence of events from a state. -/
def runTrace (st : ServerState) (evs : List Event) : ServerState :=
  evs.foldl step st

/-! ### Bearer-token authentication and the endpoint table -/

/-- Whether `p.data` is a prefix of `s.data` — the semantics of the source's
`authorization.startswith("Bearer ")`. -/
def startsWithB (p s : String) : Bool :=
  p.data.isPrefixOf s.data

/-- Fuel-indexed worker for `pyReplaceDel`: deletes non-overlapping
occurrences of `old` left to right, one fuel unit per step.  Fuel equal to
the input length always suffices when `old` is nonempty, which is the only
way the source calls it. -/
def pyReplaceDelAux (old : List Char) : Nat → List Char → List Char
  | 0, s => s
  | _ + 1, [] => []
  | fuel + 1, c :: rest =>
    if old.isPrefixOf (c :: rest) then
      pyReplaceDelAux old fuel ((c :: rest).drop old.length)
    else
      c :: pyReplaceDelAux old fuel rest

/-- Python's `s.replace(old, "")`: every non-overlapping occurrence of `old`
is deleted, scanning left to right.  This is the exact call the source makes
(`authorization.replace("Bearer ", "")`), which removes more than just a
leading prefix. -/
def pyReplaceDel (old s : String) : String :=
  ⟨pyReplaceDelAux old.data s.data.length s.data⟩

/-- `verify_api_key`: 401 when the `Authorization` header is missing, does
not start with `"Bearer "`, or the token obtained by deleting every
`"Bearer "` occurrence differs from the configured key; otherwise returns
`True`. -/
def verify_api_key (api_key : String) (authorization : Option String) :
    Except Nat Bool :=
  match authorization with
  | none => .error 401
  | some s =>
    if startsWithB "Bearer " s then
      let token := pyReplaceDel "Bearer " s
      if token = api_key then .ok true else .error 401
    else .error 401

/-- One row of the server's route table: HTTP method, path, handler name,
and whether the handler declares `Depends(verify_api_key)`. -/
structure Endpoint where
  method : String
  path : String
  handler : String
  requires_auth : Bool
deriving DecidableEq

/-- Every route registered on the FastAPI app, in source order.
`requires_auth` is read off from the presence of the
`authenticated: bool = Depends(verify_api_key)` parameter. -/
def server_endpoints : List Endpoint :=
  [ { method := "GET", path := "/", handler := "root", requires_auth := false },
    { method := "GET", path := "/api/health", handler := "health_check",
      requires_auth := false },
    { method := "POST", path := "/api/create_session",
      handler := "create_session", requires_auth := true },
    { method := "POST", path := "/api/send_async_command",
      handler := "send_async_command", requires_auth := true },
    { method := "GET", path := "/api/job/{job_id}", handler := "get_job",
      requires_auth := true },
    { method := "GET", path := "/api/command_history/{session_id}",
      handler := "get_command_history", requires_auth := true },
    { method := "POST", path := "/api/close_session/{session_id}",
      handler := "close_session", requires_auth := true },
    { method := "GET", path := "/terminal/{session_id}",
      handler := "terminal_page", requires_auth := false } ]

/-! ### Client-side poller (`interactive_terminal_open_webgui.py`) -/

/-- The ways a `requests` call can fail inside `_make_request`; all three
`except` clauses return `None`. -/
inductive ReqFailure where
  | connectionError
  | timedOut
  | otherException
deriving DecidableEq

/-- A confirmation-status response as the poller reads it: HTTP status code
and the `status` field of the JSON body. -/
structure ConfResponse where
  status_code : Nat
  body_status : String
deriving DecidableEq

/-- `_make_request`: a successful call returns the response; a connection
error, timeout, or any other exception returns `none`. -/
def make_request {ρ : Type} (result : Except ReqFailure ρ) : Option ρ :=
  match result with
  | .ok r => some r
  | .error _ => none

/-- Outcome of `_wait_for_confirmation`: the three early returns plus the
still-waiting return after the schedule is exhausted. -/
inductive ConfOutcome where
  | approved
  | denied
  | expired
  | stillWaiting
deriving DecidableEq

/-- The confirmation poll loop body, indexed by the current tick `i` and the
number of remaining scheduled ticks.  `check i` is what `_make_request`
returned at tick `i`; a `none` (connectivity failure) or a non-200 response
or a still-`pending` body just moves on to the next tick.  (A `requests`
response is falsy for status ≥ 400, so the source's
`if response and response.status_code == 200` proceeds exactly on 200.) -/
def confPollLoop (check : Nat → Option ConfResponse) : Nat → Nat → ConfOutcome
  | _, 0 => .stillWaiting
  | i, n + 1 =>
    match check i with
    | some r =>
      if r.status_code = 200 then
        if r.body_status = "approved" then .approved
        else if r.body_status = "denied" then .denied
        else if r.body_status = "expired" then .expired
        else confPollLoop check (i + 1) n
      else confPollLoop check (i + 1) n
    | none => confPollLoop check (i + 1) n

/-- The fixed confirmation poll schedule `[2, 3, 5, 5, 5]`. -/
def confirmation_poll_intervals : List Nat := [2, 3, 5, 5, 5]

/-- `_wait_for_confirmation`: one check per scheduled tick, early return on a
terminal status, `stillWaiting` once the schedule is exhausted. -/
def wait_for_confirmation (check : Nat → Option ConfResponse) : ConfOutcome :=
  confPollLoop check 0 confirmation_poll_intervals.length

/-- Outcome of `_poll_job_with_backoff`: the two early returns (carrying the
fields the source reports) plus the still-running return after the schedule
is exhausted.  The source additionally `.strip()`s the output for display. -/
inductive JobOutcome where
  | completed (output : String)
  | failed (error : Option String)
  | stillRunning
deriving DecidableEq

/-- The job poll loop body: `check i` is the pair of HTTP status code and
JSON job body observed at tick `i`, or `none` on a connectivity failure. -/
def jobPollLoop (check : Nat → Option (Nat × JobRec)) : Nat → Nat → JobOutcome
  | _, 0 => .stillRunning
  | i, n + 1 =>
    match check i with
    | some (code, job) =>
      if code = 200 then
        if job.status = "completed" then .completed job.output
        else if job.status = "failed" then .failed job.error
        else jobPollLoop check (i + 1) n
      else jobPollLoop check (i + 1) n
    | none => jobPollLoop check (i + 1) n

/-- The fixed job poll schedule `[0, 2, 5, 10, 20]`. -/
def job_poll_intervals : List Nat := [0, 2, 5, 10, 20]

/-- `_poll_job_with_backoff`: one check per scheduled tick, early return on
`completed`/`failed`, `stillRunning` once the schedule is exhausted. -/
def poll_job_with_backoff (check : Nat → Option (Nat × JobRec)) : JobOutcome :=
  jobPollLoop check 0 job_poll_intervals.length

/-! ### Helper lemmas about the dict model -/

theorem alookup_aset_self {α : Type} (l : List (String × α)) (k : String)
    (v : α) : alookup (aset l k v) k = some v := by
  induction l with
  | nil => simp [aset, alookup]
  | cons hd tl ih =>
    obtain ⟨k', v'⟩ := hd
    by_cases h : k' = k
    · simp [aset, h, alookup]
    · simp [aset, h, alookup, ih]

theorem alookup_aset_ne {α : Type} (l : List (String × α)) (k k' : String)
    (v : α) (h : k ≠ k') : alookup (aset l k v) k' = alookup l k' := by
  induction l with
  | nil => simp [aset, alookup, h]
  | cons hd tl ih =>
    obtain ⟨k0, v0⟩ := hd
    by_cases h0 : k0 = k
    · subst h0
      simp [aset, alookup, h]
    · simp [aset, h0, alookup, ih]

/-- `execute_command` only ever rewrites the job entry of the task's own job
id; every other job record is untouched. -/
theorem execute_command_jobs_ne (st : ServerState)
    (jid cmd sid : String) (o : ExecOutcome) (now : Nat) (jid' : String)
    (h : jid' ≠ jid) :
    alookup (execute_command st jid cmd sid o now).jobs jid' =
      alookup st.jobs jid' := by
  cases o with
  | finished stdout stderr rc =>
    cases hj : alookup st.jobs jid with
    | none => simp [execute_command, hj]
    | some j =>
      simp only [execute_command, hj]
      exact alookup_aset_ne _ _ _ _ (fun he => h he.symm)
  | raised msg =>
    cases hj : alookup st.jobs jid with
    | none => simp [execute_command, hj]
    | some j =>
      simp only [execute_command, hj]
      exact alookup_aset_ne _ _ _ _ (fun he => h he.symm)

/-- `execute_command` never removes a job entry nor changes `pendingTasks`. -/
theorem execute_command_pendingTasks (st : ServerState)
    (jid cmd sid : String) (o : ExecOutcome) (now : Nat) :
    (execute_command st jid cmd sid o now).pendingTasks = st.pendingTasks := by
  cases o with
  | finished stdout stderr rc =>
    cases hj : alookup st.jobs jid <;> simp [execute_command, hj]
  | raised msg =>
    cases hj : alookup st.jobs jid <;> simp [execute_command, hj]

theorem findTask_mem (tasks : List (String × String × String)) (jid : String)
    (cmd sid : String) (h : findTask tasks jid = some (cmd, sid)) :
    (jid, cmd, sid) ∈ tasks := by
  induction tasks with
  | nil => simp [findTask] at h
  | cons hd tl ih =>
    obtain ⟨j, c, s⟩ := hd
    by_cases hj : j = jid
    · subst hj
      simp [findTask] at h
      obtain ⟨hc, hs⟩ := h
      subst hc; subst hs
      exact List.mem_cons_self _ _
    · simp [findTask, hj] at h
      exact List.mem_cons_of_mem _ (ih h)

theorem mem_removeTask (tasks : List (String × String × String)) (jid : String)
    (t : String × String × String) (h : t ∈ removeTask tasks jid) :
    t ∈ tasks ∧ t.1 ≠ jid := by
  unfold removeTask at h
  have := List.of_mem_filter h
  refine ⟨List.mem_of_mem_filter h, ?_⟩
  simpa using this

/-! ### The tasks-are-running invariant and terminal-status preservation -/

/-- Every spawned-but-unfired `execute_command` task belongs to a job that is
still in the `"running"` state. -/
def TasksRunning (st : ServerState) : Prop :=
  ∀ t ∈ st.pendingTasks, ∃ j, alookup st.jobs t.1 = some j ∧ j.status = "running"

theorem tasksRunning_init : TasksRunning initState := by
  intro t ht
  simp [initState] at ht

theorem tasksRunning_step (st : ServerState) (e : Event)
    (h : TasksRunning st) : TasksRunning (step st e) := by
  cases e with
  | createSession sid now =>
    intro t ht
    exact h t ht
  | sendAsync sid cmd jid now =>
    cases hcol : alookup st.jobs jid with
    | some _ =>
      intro t ht
      simpa [step, hcol] using h t (by simpa [step, hcol] using ht)
    | none =>
      cases hs : alookup st.sessions sid with
      | none =>
        intro t ht
        simpa [step, hcol, send_async_command, hs] using
          h t (by simpa [step, hcol, send_async_command, hs] using ht)
      | some _ =>
        intro t ht
        simp only [step, hcol, send_async_command, hs, List.mem_append,
          List.mem_singleton] at ht
        rcases ht with hold | hnew
        · obtain ⟨j, hj, hrun⟩ := h t hold
          refine ⟨j, ?_, hrun⟩
          have hne : t.1 ≠ jid := by
            intro he
            rw [he, hcol] at hj
            exact Option.noConfusion hj
          simpa [step, hcol, send_async_command, hs,
            alookup_aset_ne _ _ _ _ (fun he => hne he.symm)] using hj
        · subst hnew
          refine ⟨{ job_id := jid, session_id := sid, command := cmd,
                    status := "running", output := "", error := none,
                    started_at := now, return_code := none,
                    completed_at := none, elapsed_seconds := none }, ?_, rfl⟩
          simpa [step, hcol, send_async_command, hs] using
            alookup_aset_self st.jobs jid _
  | runTask jid o now =>
    cases hf : findTask st.pendingTasks jid with
    | none =>
      intro t ht
      simpa [step, hf] using h t (by simpa [step, hf] using ht)
    | some cs =>
      obtain ⟨cmd, sid⟩ := cs
      intro t ht
      simp only [step, hf] at ht
      rw [execute_command_pendingTasks] at ht
      obtain ⟨hmem, hne⟩ := mem_removeTask _ _ _ ht
      obtain ⟨j, hj, hrun⟩ := h t hmem
      refine ⟨j, ?_, hrun⟩
      simpa [step, hf] using
        (execute_command_jobs_ne st jid cmd sid o now t.1 hne).trans hj
  | readJob jid now =>
    intro t ht
    cases hj : alookup st.jobs jid with
    | none => simpa [step, get_job, hj] using h t (by simpa [step, get_job, hj] using ht)
    | some j => simpa [step, get_job, hj] using h t (by simpa [step, get_job, hj] using ht)
  | readHistory sid =>
    intro t ht
    cases hs : alookup st.sessions sid with
    | none =>
      simpa [step, get_command_history, hs] using
        h t (by simpa [step, get_command_history, hs] using ht)
    | some s =>
      simpa [step, get_command_history, hs] using
        h t (by simpa [step, get_command_history, hs] using ht)
  | closeSession sid now =>
    intro t ht
    cases hs : alookup st.sessions sid with
    | none =>
      simpa [step, close_session, hs] using
        h t (by simpa [step, close_session, hs] using ht)
    | some s =>
      simpa [step, close_session, hs] using
        h t (by simpa [step, close_session, hs] using ht)

theorem tasksRunning_runTrace (st : ServerState) (h : TasksRunning st)
    (evs : List Event) : TasksRunning (runTrace st evs) := by
  induction evs generalizing st with
  | nil => exact h
  | cons e rest ih => exact ih (step st e) (tasksRunning_step st e h)

/-- Under the invariant, one step of the server leaves every job record that
has already reached a terminal status completely unchanged. -/
theorem terminal_step (st : ServerState) (e : Event) (hinv : TasksRunning st)
    (jid : String) (j : JobRec) (hj : alookup st.jobs jid = some j)
    (hterm : j.status = "completed" ∨ j.status = "failed") :
    alookup (step st e).jobs jid = some j := by
  cases e with
  | createSession sid now => simpa [step, create_session] using hj
  | sendAsync sid cmd jid' now =>
    cases hcol : alookup st.jobs jid' with
    | some _ => simpa [step, hcol] using hj
    | none =>
      cases hs : alookup st.sessions sid with
      | none => simpa [step, hcol, send_async_command, hs] using hj
      | some _ =>
        have hne : jid' ≠ jid := by
          intro he
          rw [he, hj] at hcol
          exact Option.noConfusion hcol
        simpa [step, hcol, send_async_command, hs,
          alookup_aset_ne _ _ _ _ hne] using hj
  | runTask jid' o now =>
    cases hf : findTask st.pendingTasks jid' with
    | none => simpa [step, hf] using hj
    | some cs =>
      obtain ⟨cmd, sid⟩ := cs
      have hne : jid ≠ jid' := by
        intro he
        subst he
        obtain ⟨jr, hjr, hrun⟩ := hinv _ (findTask_mem _ _ _ _ hf)
        rw [hj] at hjr
        cases hjr
        rcases hterm with h1 | h1 <;> rw [h1] at hrun <;> exact absurd hrun (by decide)
      simp only [step, hf]
      exact (execute_command_jobs_ne st jid' cmd sid o now jid hne).trans hj
  | readJob jid' now =>
    cases hq : alookup st.jobs jid' with
    | none => simpa [step, get_job, hq] using hj
    | some _ => simpa [step, get_job, hq] using hj
  | readHistory sid =>
    cases hs : alookup st.sessions sid with
    | none => simpa [step, get_command_history, hs] using hj
    | some _ => simpa [step, get_command_history, hs] using hj
  | closeSession sid now =>
    cases hs : alookup st.sessions sid with
    | none => simpa [step, close_session, hs] using hj
    | some _ => simpa [step, close_session, hs] using hj

theorem terminal_runTrace (evs : List Event) (st : ServerState)
    (hinv : TasksRunning st) (jid : String) (j : JobRec)
    (hj : alookup st.jobs jid = some j)
    (hterm : j.status = "completed" ∨ j.status = "failed") :
    alookup (runTrace st evs).jobs jid = some j := by
  induction evs generalizing st with
  | nil => exact hj
  | cons e rest ih =>
    exact ih (step st e) (tasksRunning_step st e hinv)
      (terminal_step st e hinv jid j hj hterm)

/-! ### The claims -/

/-- A server state holding exactly one freshly created session `"s1"`. -/
def sessionOnlyState : ServerState := (create_session initState "s1" 0).2

/-- Claim C1: the spec says a `medium`/`high`-risk command gets exactly one
pending Confirmation and no Job until approval.  The server has no risk
classifier and no confirmation store at all (there is no confirmation
collection in `ServerState` because none exists in the source): even for the
spec's canonical high-risk command `sudo systemctl restart nginx`,
`send_async_command` immediately stores a Job in status `"running"` with
hard-coded `risk_level` `"low"` and hands the command to the executor task —
while the repository's own client tool expects 403/`pending_confirmation`
responses the server can never produce. -/
theorem highRiskCommandGetsImmediateJob :
    (send_async_command sessionOnlyState "s1" "sudo systemctl restart nginx" "j1" 1).1 =
      .ok { success := true, job_id := "j1", status := "running",
            risk_level := "low" } ∧
    alookup (send_async_command sessionOnlyState "s1"
        "sudo systemctl restart nginx" "j1" 1).2.jobs "j1" =
      some { job_id := "j1", session_id := "s1",
             command := "sudo systemctl restart nginx", status := "running",
             output := "", error := none, started_at := 1, return_code := none,
             completed_at := none, elapsed_seconds := none } ∧
    ("j1", "sudo systemctl restart nginx", "s1") ∈
      (send_async_command sessionOnlyState "s1"
        "sudo systemctl restart nginx" "j1" 1).2.pendingTasks := by
  refine ⟨rfl, by decide, by decide⟩

/-- Claim C2: the spec says a `blocked` command creates no Job, leaves the
history unchanged, and never reaches a subprocess.  The server has no
`blocked` tier: even `rm -rf /` (the spec's own blocked scenario) gets a Job,
is handed to the executor's subprocess task, and once that task fires the
session history gains an entry. -/
theorem blockedCommandStillExecutes :
    (send_async_command sessionOnlyState "s1" "rm -rf /" "j2" 1).1 =
      .ok { success := true, job_id := "j2", status := "running",
            risk_level := "low" } ∧
    ("j2", "rm -rf /", "s1") ∈
      (send_async_command sessionOnlyState "s1" "rm -rf /" "j2" 1).2.pendingTasks ∧
    alookup (runTrace initState
        [ .createSession "s1" 0, .sendAsync "s1" "rm -rf /" "j2" 1,
          .runTask "j2" (.finished "" "" 0) 2 ]).command_history "s1" =
      some [ { command := "rm -rf /", output := "", error := "",
               return_code := 0, timestamp := 2, source := "llm_async",
               risk_level := "low" } ] := by
  refine ⟨rfl, by decide, by decide⟩

/-- A state with session `"s1"` (created at time 0) that already executed one
command, so its history is nonempty. -/
def c3Start : ServerState :=
  runTrace initState
    [ .createSession "s1" 0, .sendAsync "s1" "pwd" "j3" 1,
      .runTask "j3" (.finished "/root" "" 0) 2 ]

/-- Claim C3 counterexample: re-creating the already-registered session
`"s1"` does not fail with AlreadyExists — `create_session` reports success,
replaces the stored record (`created_at` jumps from 0 to 9), and wipes the
session's nonempty history back to `[]`. -/
theorem createSessionDuplicate_counterexample :
    alookup c3Start.sessions "s1" =
      some { id := "s1", created_at := 0, active := true, closed_at := none } ∧
    (alookup c3Start.command_history "s1").map List.length = some 1 ∧
    (create_session c3Start "s1" 9).1.success = true ∧
    alookup (create_session c3Start "s1" 9).2.sessions "s1" =
      some { id := "s1", created_at := 9, active := true, closed_at := none } ∧
    alookup (create_session c3Start "s1" 9).2.command_history "s1" = some [] := by
  decide

/-- Claim C3 (amended): `create_session` never fails with AlreadyExists; for
every state, identifier and time it reports success and unconditionally
(re)registers the identifier, overwriting any existing Session record with a
fresh active one and resetting the identifier's command history to empty. -/
theorem createSessionUnconditionallyRegisters (st : ServerState)
    (sid : String) (now : Nat) :
    (create_session st sid now).1 =
      { success := true, session_id := sid,
        message := "Terminal session created" } ∧
    alookup (create_session st sid now).2.sessions sid =
      some { id := sid, created_at := now, active := true, closed_at := none } ∧
    alookup (create_session st sid now).2.command_history sid = some [] := by
  exact ⟨rfl, alookup_aset_self _ _ _, alookup_aset_self _ _ _⟩

/-- The single-session state after `close_session` deactivated `"s1"`. -/
def c4Closed : ServerState := (close_session sessionOnlyState "s1" 2).2

/-- Claim C4 counterexample: `"s1"` has been closed (`active = false`,
`closed_at` stamped), yet `send_async_command` accepts a command for it and
creates a Job — the handler only tests dict membership, never the `active`
flag, so an inactive session is not rejected with 404. -/
theorem closedSessionAccepted_counterexample :
    alookup c4Closed.sessions "s1" =
      some { id := "s1", created_at := 0, active := false, closed_at := some 2 } ∧
    (send_async_command c4Closed "s1" "ls" "j4" 3).1 =
      .ok { success := true, job_id := "j4", status := "running",
            risk_level := "low" } ∧
    alookup (send_async_command c4Closed "s1" "ls" "j4" 3).2.jobs "j4" ≠ none := by
  refine ⟨by decide, rfl, by decide⟩

/-- Claim C4 (amended): `send_async_command` fails with 404 exactly when the
session identifier is not registered at all; whenever a record is present —
active or closed — the command is accepted and a running Job is returned. -/
theorem submitChecksOnlyRegistration (st : ServerState)
    (sid cmd jid : String) (now : Nat) :
    ((send_async_command st sid cmd jid now).1 = .error 404 ↔
      alookup st.sessions sid = none) ∧
    (∀ r : SessionRec, alookup st.sessions sid = some r →
      (send_async_command st sid cmd jid now).1 =
        .ok { success := true, job_id := jid, status := "running",
              risk_level := "low" }) := by
  cases hs : alookup st.sessions sid with
  | none =>
    refine ⟨by simp [send_async_command, hs], ?_⟩
    intro r hr
    exact Option.noConfusion hr
  | some r =>
    exact ⟨by simp [send_async_command, hs], fun r' _ => by
      simp [send_async_command, hs]⟩

/-- Claim C4 witness: the amended theorem evaluated at a missing session and
at the concrete closed session of the counterexample state. -/
theorem submitChecksOnlyRegistration_witness :
    (send_async_command initState "ghost" "ls" "j9" 0).1 = .error 404 ∧
    (send_async_command c4Closed "s1" "ls" "j4" 3).1 =
      .ok { success := true, job_id := "j4", status := "running",
            risk_level := "low" } :=
  ⟨(submitChecksOnlyRegistration initState "ghost" "ls" "j9" 0).1.mpr rfl,
   (submitChecksOnlyRegistration c4Closed "s1" "ls" "j4" 3).2
     { id := "s1", created_at := 0, active := false, closed_at := some 2 }
     (by decide)⟩

/-- The single-session state after accepting command `"launchfail"` as job
`"j5"` (history still empty). -/
def c5Start : ServerState :=
  (send_async_command sessionOnlyState "s1" "launchfail" "j5" 1).2

/-- Claim C5 counterexample: when the subprocess launch itself throws, the
executor's `except` branch marks the job `"failed"` with the exception text
and `completed_at` — execution is fully resolved — but appends nothing to the
session history, so the history stays empty instead of gaining exactly one
entry as the claim requires. -/
theorem launchFailureNoHistory_counterexample :
    alookup c5Start.command_history "s1" = some [] ∧
    alookup (execute_command c5Start "j5" "launchfail" "s1"
        (.raised "[Errno 2] No such file or directory") 4).command_history "s1" =
      some [] ∧
    alookup (execute_command c5Start "j5" "launchfail" "s1"
        (.raised "[Errno 2] No such file or directory") 4).jobs "j5" =
      some { job_id := "j5", session_id := "s1", command := "launchfail",
             status := "failed", output := "",
             error := some "[Errno 2] No such file or directory",
             started_at := 1, return_code := none, completed_at := some 4,
             elapsed_seconds := none } := by
  decide

/-- Claim C5 (amended): exactly one HistoryEntry is appended when the
subprocess runs to completion, regardless of its exit code; when the launch
itself throws, no HistoryEntry is appended (the job is still marked failed,
but launch failures are absent from the session's audit history). -/
theorem historyAppendOnCompletionOnly (st : ServerState)
    (jid cmd sid stdout stderr : String) (rc : Int) (now : Nat)
    (j0 : JobRec) (h0 : List HistoryEntry)
    (hj : alookup st.jobs jid = some j0)
    (hh : alookup st.command_history sid = some h0) :
    alookup (execute_command st jid cmd sid
        (.finished stdout stderr rc) now).command_history sid =
      some (h0 ++ [{ command := cmd, output := stdout, error := stderr,
                     return_code := rc, timestamp := now,
                     source := "llm_async", risk_level := "low" }]) ∧
    (∀ msg, alookup (execute_command st jid cmd sid
        (.raised msg) now).command_history sid = some h0) := by
  constructor
  · simp only [execute_command, hj, hh]
    exact alookup_aset_self _ _ _
  · intro msg
    simp only [execute_command, hj]
    exact hh

/-- A state with session `"s1"` and the freshly accepted job `"j6"`. -/
def c5wState : ServerState :=
  (send_async_command sessionOnlyState "s1" "echo ok" "j6" 1).2

/-- Claim C5 witness: the amended theorem at the concrete state `c5wState`,
with a completing subprocess (exit code 0) and a throwing launch. -/
theorem historyAppendOnCompletionOnly_witness :
    alookup c5wState.jobs "j6" =
      some { job_id := "j6", session_id := "s1", command := "echo ok",
             status := "running", output := "", error := none, started_at := 1,
             return_code := none, completed_at := none,
             elapsed_seconds := none } ∧
    alookup c5wState.command_history "s1" = some [] ∧
    (alookup (execute_command c5wState "j6" "echo ok" "s1"
        (.finished "ok" "" 0) 3).command_history "s1" =
      some ([] ++ [{ command := "echo ok", output := "ok", error := "",
                     return_code := 0, timestamp := 3, source := "llm_async",
                     risk_level := "low" }]) ∧
     ∀ msg, alookup (execute_command c5wState "j6" "echo ok" "s1"
        (.raised msg) 3).command_history "s1" = some []) :=
  ⟨by decide, by decide,
   historyAppendOnCompletionOnly c5wState "j6" "echo ok" "s1" "ok" "" 0 3
     { job_id := "j6", session_id := "s1", command := "echo ok",
       status := "running", output := "", error := none, started_at := 1,
       return_code := none, completed_at := none, elapsed_seconds := none }
     [] (by decide) (by decide)⟩

/-- Claim C6: when a job's subprocess runs to completion, the executor sets
the stored job's terminal status to `"completed"` exactly when the exit code
is 0 (and to `"failed"` otherwise), captures the output, and records the
return code, `completed_at`, and the elapsed duration since `started_at`. -/
theorem terminalStatusMatchesExitCode (st : ServerState)
    (jid cmd sid stdout stderr : String) (rc : Int) (now : Nat) (j0 : JobRec)
    (hj : alookup st.jobs jid = some j0) :
    ∃ j', alookup (execute_command st jid cmd sid
        (.finished stdout stderr rc) now).jobs jid = some j' ∧
      (j'.status = "completed" ↔ rc = 0) ∧
      (j'.status = "failed" ↔ rc ≠ 0) ∧
      j'.output = stdout ∧
      j'.return_code = some rc ∧
      j'.completed_at = some now ∧
      j'.elapsed_seconds = some (now - j0.started_at) := by
  simp only [execute_command, hj]
  refine ⟨_, alookup_aset_self _ _ _, ?_, ?_, rfl, rfl, rfl, rfl⟩
  · by_cases h0 : rc = 0 <;> simp [h0]
  · by_cases h0 : rc = 0 <;> simp [h0]

/-- Claim C6 witness: the theorem at `c5wState`'s running job `"j6"` with a
subprocess finishing at time 5 with exit code 0. -/
theorem terminalStatusMatchesExitCode_witness :
    alookup c5wState.jobs "j6" =
      some { job_id := "j6", session_id := "s1", command := "echo ok",
             status := "running", output := "", error := none, started_at := 1,
             return_code := none, completed_at := none,
             elapsed_seconds := none } ∧
    (∃ j', alookup (execute_command c5wState "j6" "echo ok" "s1"
        (.finished "ok" "" 0) 5).jobs "j6" = some j' ∧
      (j'.status = "completed" ↔ (0 : Int) = 0) ∧
      (j'.status = "failed" ↔ (0 : Int) ≠ 0) ∧
      j'.output = "ok" ∧
      j'.return_code = some 0 ∧
      j'.completed_at = some 5 ∧
      j'.elapsed_seconds = some (5 - 1)) :=
  ⟨by decide,
   terminalStatusMatchesExitCode c5wState "j6" "echo ok" "s1" "ok" "" 0 5
     { job_id := "j6", session_id := "s1", command := "echo ok",
       status := "running", output := "", error := none, started_at := 1,
       return_code := none, completed_at := none, elapsed_seconds := none }
     (by decide)⟩

/-- Claim C7: a job's status never regresses from a terminal state.  In any
state the server can actually reach (a trace of API calls and task firings
from the empty start state), once a stored job is `"completed"` or
`"failed"`, any further sequence of operations leaves its record — in
particular its status — exactly as it is: job ids are unique (uuid4), each
spawned executor task fires exactly once, and every other handler either
reads the job store or writes only other keys. -/
theorem jobStatusNeverRegresses (evs evs' : List Event) (jid : String)
    (j : JobRec)
    (hj : alookup (runTrace initState evs).jobs jid = some j)
    (hterm : j.status = "completed" ∨ j.status = "failed") :
    alookup (runTrace (runTrace initState evs) evs').jobs jid = some j :=
  terminal_runTrace evs' (runTrace initState evs)
    (tasksRunning_runTrace initState tasksRunning_init evs) jid j hj hterm

/-- Trace reaching a completed job `"j1"`. -/
def c7Trace : List Event :=
  [ .createSession "s1" 0, .sendAsync "s1" "ls -la" "j1" 1,
    .runTask "j1" (.finished "total 0" "" 0) 3 ]

/-- The record job `"j1"` holds at the end of `c7Trace`. -/
def c7Job : JobRec :=
  { job_id := "j1", session_id := "s1", command := "ls -la",
    status := "completed", output := "total 0", error := none,
    started_at := 1, return_code := some 0, completed_at := some 3,
    elapsed_seconds := some 2 }

/-- Later events that try to disturb the finished job: a spurious re-fire of
its task, a submit re-using its id, reads, and closing the session. -/
def c7Later : List Event :=
  [ .runTask "j1" (.raised "spurious refire") 9,
    .sendAsync "s1" "pwd" "j1" 10, .readJob "j1" 11, .readHistory "s1",
    .closeSession "s1" 12 ]

/-- Claim C7 witness: the theorem at the concrete trace `c7Trace`, whose job
`"j1"` is `"completed"`, surviving all the events of `c7Later` untouched. -/
theorem jobStatusNeverRegresses_witness :
    alookup (runTrace initState c7Trace).jobs "j1" = some c7Job ∧
    alookup (runTrace (runTrace initState c7Trace) c7Later).jobs "j1" =
      some c7Job :=
  ⟨by decide,
   jobStatusNeverRegresses c7Trace c7Later "j1" c7Job (by decide)
     (Or.inl (by decide))⟩

/-- Claim C8 counterexample: `GET /terminal/{session_id}` is registered on
the app, is neither the health nor the root endpoint, and declares no
`Depends(verify_api_key)` — so it is reachable without the bearer-token
check, refuting "every endpoint except health and root". -/
theorem terminalPageUnauthenticated_counterexample :
    ({ method := "GET", path := "/terminal/{session_id}",
       handler := "terminal_page", requires_auth := false } : Endpoint) ∈
      server_endpoints ∧
    ¬ (∀ e ∈ server_endpoints,
        e.handler ≠ "root" → e.handler ≠ "health_check" →
        e.requires_auth = true) := by
  refine ⟨by decide, fun hall => ?_⟩
  have h := hall
    { method := "GET", path := "/terminal/{session_id}",
      handler := "terminal_page", requires_auth := false }
    (by decide) (by decide) (by decide)
  exact Bool.noConfusion h

/-- Claim C8 (amended): an endpoint carries the bearer-token dependency
exactly when it is not the root, health, or terminal-page endpoint; and
`verify_api_key` rejects with 401 a missing header, a header that does not
start with `"Bearer "`, and a header whose extracted token differs from the
configured key, while accepting a header whose extracted token matches. -/
theorem authRequiredOutsideRootHealthTerminal :
    (∀ e ∈ server_endpoints,
      (e.requires_auth = true ↔
        (e.handler ≠ "root" ∧ e.handler ≠ "health_check" ∧
         e.handler ≠ "terminal_page"))) ∧
    (∀ k : String, verify_api_key k none = .error 401) ∧
    (∀ k s : String, startsWithB "Bearer " s = false →
      verify_api_key k (some s) = .error 401) ∧
    (∀ k s : String, pyReplaceDel "Bearer " s ≠ k →
      verify_api_key k (some s) = .error 401) ∧
    (∀ k s : String, startsWithB "Bearer " s = true →
      pyReplaceDel "Bearer " s = k → verify_api_key k (some s) = .ok true) := by
  refine ⟨by decide, fun k => rfl, ?_, ?_, ?_⟩
  · intro k s h
    simp [verify_api_key, h]
  · intro k s h
    cases hb : startsWithB "Bearer " s <;> simp [verify_api_key, hb, h]
  · intro k s hb ht
    simp [verify_api_key, hb, ht]

/-- The authenticated `create_session` route, used to instantiate the
endpoint-table half of the amended claim C8. -/
def c8Endpoint : Endpoint :=
  { method := "POST", path := "/api/create_session",
    handler := "create_session", requires_auth := true }

/-- Claim C8 witness: the amended theorem at the key `"secret123"` with a
missing header, a Basic header, a wrong bearer token, a correct bearer
token, and at the concrete `create_session` route. -/
theorem authRequiredOutsideRootHealthTerminal_witness :
    verify_api_key "secret123" none = .error 401 ∧
    verify_api_key "secret123" (some "Basic secret123") = .error 401 ∧
    verify_api_key "secret123" (some "Bearer wrong") = .error 401 ∧
    verify_api_key "secret123" (some "Bearer secret123") = .ok true ∧
    (c8Endpoint.requires_auth = true ↔
      (c8Endpoint.handler ≠ "root" ∧ c8Endpoint.handler ≠ "health_check" ∧
       c8Endpoint.handler ≠ "terminal_page")) :=
  ⟨authRequiredOutsideRootHealthTerminal.2.1 "secret123",
   authRequiredOutsideRootHealthTerminal.2.2.1 "secret123" "Basic secret123"
     (by decide),
   authRequiredOutsideRootHealthTerminal.2.2.2.1 "secret123" "Bearer wrong"
     (by decide),
   authRequiredOutsideRootHealthTerminal.2.2.2.2 "secret123" "Bearer secret123"
     (by decide) (by decide),
   authRequiredOutsideRootHealthTerminal.1 c8Endpoint (by decide)⟩

/-- Claim C9: both poll loops treat a check that fails for connectivity
reasons as "not yet resolved".  `_make_request` maps a connection error,
timeout, or any other request exception to `none`; a `none` tick makes either
loop continue to the next scheduled tick instead of aborting; and when every
tick of the full schedule fails, the loops return the still-waiting /
still-running result rather than an error. -/
theorem pollerToleratesConnectivityFailure :
    (∀ f : ReqFailure,
      make_request (ρ := ConfResponse) (.error f) = none) ∧
    (∀ (check : Nat → Option ConfResponse) (i n : Nat), check i = none →
      confPollLoop check i (n + 1) = confPollLoop check (i + 1) n) ∧
    (∀ (check : Nat → Option (Nat × JobRec)) (i n : Nat), check i = none →
      jobPollLoop check i (n + 1) = jobPollLoop check (i + 1) n) ∧
    (∀ check : Nat → Option ConfResponse,
      (∀ i, i < confirmation_poll_intervals.length → check i = none) →
      wait_for_confirmation check = .stillWaiting) ∧
    (∀ check : Nat → Option (Nat × JobRec),
      (∀ i, i < job_poll_intervals.length → check i = none) →
      poll_job_with_backoff check = .stillRunning) := by
  refine ⟨fun f => rfl, ?_, ?_, ?_, ?_⟩
  · intro check i n h
    simp [confPollLoop, h]
  · intro check i n h
    simp [jobPollLoop, h]
  · intro check h
    have h0 := h 0 (by decide)
    have h1 := h 1 (by decide)
    have h2 := h 2 (by decide)
    have h3 := h 3 (by decide)
    have h4 := h 4 (by decide)
    simp [wait_for_confirmation, confirmation_poll_intervals, confPollLoop,
      h0, h1, h2, h3, h4]
  · intro check h
    have h0 := h 0 (by decide)
    have h1 := h 1 (by decide)
    have h2 := h 2 (by decide)
    have h3 := h 3 (by decide)
    have h4 := h 4 (by decide)
    simp [poll_job_with_backoff, job_poll_intervals, jobPollLoop,
      h0, h1, h2, h3, h4]

/-- Claim C9 witness: the theorem applied to the all-failures check: both
loops run their whole schedule and report still-waiting / still-running. -/
theorem pollerToleratesConnectivityFailure_witness :
    wait_for_confirmation (fun _ => none) = ConfOutcome.stillWaiting ∧
    poll_job_with_backoff (fun _ => none) = JobOutcome.stillRunning :=
  ⟨pollerToleratesConnectivityFailure.2.2.2.1 (fun _ => none)
     (fun _ _ => rfl),
   pollerToleratesConnectivityFailure.2.2.2.2 (fun _ => none)
     (fun _ _ => rfl)⟩

/-- Claim C10: `GET /api/job/{job_id}` never mutates the stored record: the
handler works on a copy, so the state component it returns is the input state
itself, any sequence of reads leaves the store fixed, and the returned view
of a still-running job carries the derived `elapsed_seconds` while the
stored record keeps lacking it. -/
theorem getJobLeavesStoreUnchanged (st : ServerState) (jid : String)
    (now : Nat) :
    (get_job st jid now).2 = st ∧
    (∀ reads : List (String × Nat),
      reads.foldl (fun s p => (get_job s p.1 p.2).2) st = st) ∧
    (alookup st.jobs jid = none → (get_job st jid now).1 = .error 404) ∧
    (∀ j, alookup st.jobs jid = some j →
      (get_job st jid now).1 =
        .ok (if j.elapsed_seconds = none ∧ j.status = "running" then
              { j with elapsed_seconds := some (now - j.started_at) }
            else j)) := by
  have hframe : ∀ (s : ServerState) (k : String) (t : Nat),
      (get_job s k t).2 = s := by
    intro s k t
    cases h : alookup s.jobs k <;> simp [get_job, h]
  refine ⟨hframe st jid now, ?_, ?_, ?_⟩
  · intro reads
    induction reads with
    | nil => rfl
    | cons p rest ih =>
      rw [List.foldl_cons, hframe]
      exact ih
  · intro h
    simp [get_job, h]
  · intro j h
    simp [get_job, h]

/-- The single-session state with the long-running job `"j7"` accepted at
time 2 and not yet finished. -/
def c10State : ServerState :=
  (send_async_command sessionOnlyState "s1" "sleep 60" "j7" 2).2

/-- Claim C10 witness: the theorem at `c10State`: reading `"j7"` at time 10
returns the state untouched together with a view whose `elapsed_seconds` is
8, while the stored record still has no `elapsed_seconds`. -/
theorem getJobLeavesStoreUnchanged_witness :
    (get_job c10State "j7" 10).2 = c10State ∧
    (get_job c10State "j7" 10).1 =
      .ok { job_id := "j7", session_id := "s1", command := "sleep 60",
            status := "running", output := "", error := none, started_at := 2,
            return_code := none, completed_at := none,
            elapsed_seconds := some 8 } ∧
    alookup c10State.jobs "j7" =
      some { job_id := "j7", session_id := "s1", command := "sleep 60",
             status := "running", output := "", error := none, started_at := 2,
             return_code := none, completed_at := none,
             elapsed_seconds := none } := by
  refine ⟨(getJobLeavesStoreUnchanged c10State "j7" 10).1, ?_, by decide⟩
  have h := (getJobLeavesStoreUnchanged c10State "j7" 10).2.2.2
    { job_id := "j7", session_id := "s1", command := "sleep 60",
      status := "running", output := "", error := none, started_at := 2,
      return_code := none, completed_at := none, elapsed_seconds := none }
    (by decide)
  rw [h]
  rfl

end TerminIA
